import Mathlib

/-
  Verification development for the nap-chan voice-narration bot.

  The Rust source under src/src/ (handler.rs, main.rs) is shallowly embedded
  below.  Discord ids (guild, channel, user) are modelled as `Nat`; cache
  lookups (serenity's in-memory cache maps) are modelled as association lists
  keyed by id; the sqlite-backed user-configuration store is modelled as a
  total function `Nat → UserConfig` (mirroring `get_user_config_or_default`,
  which always yields a record).  A Rust `unwrap()` that can fail is modelled
  by an explicit `panicked` outcome (or `none` for the track-end callback).
-/

namespace NapChan

/-- Association-list lookup keyed by a numeric id; models `HashMap::get` on
the serenity caches (keys are unique, so order is irrelevant). -/
def lookupIds {α : Type} : List (Nat × α) → Nat → Option α
  | [], _ => none
  | (k, v) :: rest, k' => if k = k' then some v else lookupIds rest k'

/-- A user-configuration row, as produced by `get_user_config_or_default`
(lib/db.rs, declared via the `UserConfigDB` trait used in handler.rs).
`voice_type` and `generator_type` are stored as signed integers and are
converted with `try_into().unwrap()` at the use sites in handler.rs. -/
structure UserConfig where
  hello : String
  bye : String
  read_nickname : Option String
  voice_type : Int
  generator_type : Int
deriving DecidableEq

/-- The part of a cached guild member read by handler.rs: its optional
guild nickname (`member.nick`). -/
structure MemberE where
  nick : Option String
deriving DecidableEq

/-- A serenity `VoiceState` as consumed by `voice_state_update`
(handler.rs:282-365): the affected user, their channel, the four
self-flags, and the optional attached member record. -/
structure VoiceStateE where
  user_id : Nat
  channel_id : Option Nat
  self_mute : Bool
  self_deaf : Bool
  self_video : Bool
  self_stream : Bool
  member : Option MemberE
deriving DecidableEq

/-- The slice of a cached guild used by the handlers: its voice-state map,
keyed by user id. -/
structure GuildCacheE where
  voice_states : List (Nat × VoiceStateE)
deriving DecidableEq

/-- The serenity cache as read by handler.rs: the bot's own id
(`ctx.cache.current_user_id()`), the guild map (`to_guild_cached` /
`msg.guild`), and, for each cached guild voice channel, the user ids of its
members (collapsing the `cache.channel(id)` / `.guild()` / `.members(cache)`
chain into one lookup that succeeds exactly when the whole chain does). -/
structure CacheE where
  bot_id : Nat
  guilds : List (Nat × GuildCacheE)
  channels : List (Nat × List Nat)
deriving DecidableEq

/-! ## Text normalization (dictionary substitution) -/

/-- Modelled from the spec: the implementation (`TextMessage::make_read_text`
in lib/text.rs) is not under src/, only its call site (handler.rs:350) is.
Per spec §4.2, at a given position the substitution selects, among all
dictionary keys matching there, the longest one, ties broken by the
first-registered key.  `some (key, pronunciation)` is that best match. -/
def bestMatchAt (dict : List (String × String)) (s : List Char) : Option (String × String) :=
  dict.foldl
    (fun acc kv =>
      if kv.1.data.isPrefixOf s then
        match acc with
        | none => some kv
        | some kv0 => if kv0.1.length < kv.1.length then some kv else some kv0
      else acc)
    none

/-- Modelled from the spec: left-to-right scan of §4.2.  At each position the
best dictionary match (longest, first-registered on ties) is emitted and the
scan advances past the matched span; unmatched characters pass through
unchanged.  `fuel` bounds the recursion; every step consumes at least one
character, so any `fuel ≥ s.length` gives the full scan. -/
def normChars (dict : List (String × String)) : Nat → List Char → List Char
  | 0, s => s
  | _ + 1, [] => []
  | fuel + 1, c :: rest =>
    match bestMatchAt dict (c :: rest) with
    | some kv => kv.2.data ++ normChars dict fuel (rest.drop (kv.1.data.length - 1))
    | none => c :: normChars dict fuel rest

/-- Modelled from the spec: dictionary normalization of a whole string
(`make_read_text`, lib/text.rs, per spec §4.2). -/
def make_read_text (dict : List (String × String)) (s : String) : String :=
  ⟨normChars dict s.data.length s.data⟩

/-! ## voice_state_update (handler.rs:282-365) -/

/-- Outcome of one `voice_state_update` invocation.  `silent` models every
early `return Some(())` / `?`-failure path (nothing played, no session
change); `leave` models the `meta::leave(&ctx, guild_id?)` call of the
zero-occupancy branch (handler.rs:314-317); `speak` models the
`play_raw_voice(&ctx, &text, voice_type, generator_type, guild_id?)` call
(handler.rs:353-360); `panicked` models a failing `try_into().unwrap()` on
the stored voice/generator value (handler.rs:352,357). -/
inductive VsuOutcome where
  | silent : VsuOutcome
  | leave : VsuOutcome
  | speak (text : String) (voice_type : Nat) (generator_type : Nat) : VsuOutcome
  | panicked : VsuOutcome
deriving DecidableEq

/-- `u8::try_from` on a stored integer: succeeds exactly on 0..=255. -/
def tryIntoU8 (i : Int) : Option Nat :=
  if 0 ≤ i ∧ i ≤ 255 then some i.toNat else none

/-- The self-flag comparison of handler.rs:325-328. -/
def selfStateChanged (o : VoiceStateE) (n : VoiceStateE) : Bool :=
  o.self_mute != n.self_mute || o.self_deaf != n.self_deaf ||
    o.self_video != n.self_video || o.self_stream != n.self_stream

/-- Embedding of `EventHandler::voice_state_update` (handler.rs:282-365).
Every `?` in the source's `async move` block maps to a `none`-branch
returning `silent`; the two `return Some(())` early exits likewise.  The
occupancy count filters the bot's own id out of the bot channel's member
list (handler.rs:303-313). -/
def voice_state_update (c : CacheE) (db : Nat → UserConfig)
    (dict : List (String × String)) (guild_id : Option Nat)
    (old : Option VoiceStateE) (new : VoiceStateE) : VsuOutcome :=
  match guild_id with
  | none => .silent
  | some gid =>
    match lookupIds c.guilds gid with
    | none => .silent
    | some guild =>
      match lookupIds guild.voice_states c.bot_id with
      | none => .silent
      | some bot_vs =>
        match bot_vs.channel_id with
        | none => .silent
        | some nako_channel_id =>
          match lookupIds c.channels nako_channel_id with
          | none => .silent
          | some channel_members =>
            let members_count := (channel_members.filter (fun m => m != c.bot_id)).length
            if members_count = 0 then .leave
            else if c.bot_id = new.user_id then .silent
            else
              match new.member with
              | none => .silent
              | some mem =>
                match mem.nick with
                | none => .silent
                | some user_name =>
                  let gt : Option Nat :=
                    match old with
                    | some o =>
                      if selfStateChanged o new then none
                      else if o.channel_id = some nako_channel_id then some 1 else some 0
                    | none => some 0
                  match gt with
                  | none => .silent
                  | some greeting_type =>
                    let user_config := db new.user_id
                    let nickname := user_config.read_nickname.getD user_name
                    let greet_text :=
                      if greeting_type = 0 then user_config.hello else user_config.bye
                    let text := make_read_text dict (nickname ++ "さん、" ++ greet_text)
                    match tryIntoU8 user_config.voice_type,
                          tryIntoU8 user_config.generator_type with
                    | some v, some g => .speak text v g
                    | _, _ => .panicked

/-- True when the event's previous channel equals the bot's channel
(the `old.channel_id == Some(nako_channel_id)` test of handler.rs:332,
`false` when there is no previous state). -/
def leftBotChannel (old : Option VoiceStateE) (ch : Nat) : Bool :=
  match old with
  | some o => o.channel_id == some ch
  | none => false

/-- True when the event is a pure self-flag toggle as tested by
handler.rs:325-330 (requires a previous state). -/
def selfToggled (old : Option VoiceStateE) (n : VoiceStateE) : Bool :=
  match old with
  | some o => selfStateChanged o n
  | none => false

/-- The occupancy (excluding the bot) of the bot's current voice channel as
`voice_state_update` computes it from the cache (handler.rs:291-313);
`none` when any lookup of that chain fails. -/
def bot_channel_occupancy (c : CacheE) (guild_id : Option Nat) : Option Nat :=
  match guild_id with
  | none => none
  | some gid =>
    match lookupIds c.guilds gid with
    | none => none
    | some guild =>
      match lookupIds guild.voice_states c.bot_id with
      | none => none
      | some bot_vs =>
        match bot_vs.channel_id with
        | none => none
        | some nako_channel_id =>
          match lookupIds c.channels nako_channel_id with
          | none => none
          | some channel_members =>
            some (channel_members.filter (fun m => m != c.bot_id)).length

/-! ## message (handler.rs:366-395) -/

/-- Outcome of one `message` invocation: `narrate` models the
`play_voice(&ctx, msg, self)` call (handler.rs:391), `panicked` a failing
`unwrap()` on a cache lookup (handler.rs:367,377-386), `silent` every
other path. -/
inductive MsgOutcome where
  | silent : MsgOutcome
  | narrate : MsgOutcome
  | panicked : MsgOutcome
deriving DecidableEq

/-- The slice of a serenity `Message` read by the handler: the guild it was
sent in (`msg.guild(&ctx.cache)` resolves this id against the cache), the
author's user id, and the text channel id. -/
structure MessageE where
  guild_id : Option Nat
  author_id : Nat
  channel_id : Nat
deriving DecidableEq

/-- Embedding of `EventHandler::message` (handler.rs:366-395).
`msg.guild(&ctx.cache).await.unwrap()` panics when the guild is not cached;
the `cache.channel(id)/.guild()/.members(cache)` chain of unwraps panics
when the author's voice channel is not cached as a guild channel.
Narration happens exactly when the configured read channel matches, the
author has a voice channel, the bot is among that channel's members, and
the author is not the bot. -/
def message_handler (c : CacheE) (read_channel_id : Option Nat)
    (msg : MessageE) : MsgOutcome :=
  match msg.guild_id.bind (lookupIds c.guilds) with
  | none => .panicked
  | some guild =>
    let voice_channel_id :=
      (lookupIds guild.voice_states msg.author_id).bind (fun vs => vs.channel_id)
    let text_channel_id := msg.channel_id
    if read_channel_id = some text_channel_id then
      match voice_channel_id with
      | some vch =>
        match lookupIds c.channels vch with
        | none => .panicked
        | some members =>
          if c.bot_id ∈ members ∧ msg.author_id ≠ c.bot_id then .narrate
          else .silent
      | none => .silent
    else .silent

/-! ## rand_member (handler.rs:137-158) -/

/-- The slice of a cached guild member read by `rand_member`
(handler.rs:149-157): optional guild nickname and account user name. -/
structure MemberCacheE where
  nick : Option String
  user_name : String
deriving DecidableEq

/-- Outcome of `rand_member`: `ok` the announcement string, `failed` one of
its `anyhow!` errors, `panicked` the `vc_members[i % len]` indexing when
`len = 0` (`%` by zero / index out of range panics in Rust). -/
inductive RandOutcome where
  | ok (s : String) : RandOutcome
  | failed (e : String) : RandOutcome
  | panicked : RandOutcome
deriving DecidableEq

/-- Embedding of `Handler::rand_member` (handler.rs:137-158).
`member_cache` models `ctx.cache.member(guild_id, user_id)` for the guild at
hand; `i` models the `rand::random()` draw. -/
def rand_member (c : CacheE) (member_cache : List (Nat × MemberCacheE))
    (command_guild_id : Option Nat) (i : Nat) : RandOutcome :=
  match command_guild_id with
  | none => .failed "guild does not exist"
  | some gid =>
    match lookupIds c.guilds gid with
    | none => .failed "guild does not exist"
    | some guild =>
      let vc_members := guild.voice_states.map (fun p => p.1)
      let len := vc_members.length
      match vc_members[i % len]? with
      | none => .panicked
      | some user_id =>
        match lookupIds member_cache user_id with
        | none => .failed "member not found"
        | some member =>
          .ok ("でけでけでけでけ・・・でん！" ++ member.nick.getD member.user_name)

/-! ## interaction_create reply playback (handler.rs:491-493) -/

/-- Embedding of the spoken-reply tail of `interaction_create`
(handler.rs:491-493): when the slash command produced `Ok(content)` the
handler calls `play_raw_voice(&ctx, &content, 0, 0, guild)` with the
literal voice/generator pair `(0, 0)`; on `Err` nothing is played.  The
result is the `(text, voice_type, generator_type)` triple handed to
`play_raw_voice`, or `none`. -/
def interaction_create_speak (content : Except String String) :
    Option (String × Nat × Nat) :=
  match content with
  | .ok s => some (s, 0, 0)
  | .error _ => none

/-! ## leave command (main.rs:142-165) -/

/-- The songbird manager: the set of guild ids that currently hold a voice
handler (an active sink). -/
structure SongbirdManager where
  handlers : List Nat
deriving DecidableEq

/-- Embedding of the `leave` command (main.rs:142-165).  Returns the manager
after the call and the message sent back to the user:
`manager.get(guild_id).is_some()` decides between `manager.remove` (which
releases the guild's voice handler) followed by "Left voice channel", and
the "Not in a voice channel" reply.  Both branches end in `Ok(())`. -/
def leave (m : SongbirdManager) (gid : Nat) : SongbirdManager × String :=
  let has_handler := m.handlers.contains gid
  if has_handler then
    ({ handlers := m.handlers.erase gid }, "Left voice channel")
  else
    (m, "Not in a voice channel")

/-! ## TrackEndNotifier (main.rs:57-70) -/

/-- Embedding of `TrackEndNotifier::act` (main.rs:59-70) over a filesystem
modelled as the list of existing file paths.  For each ended track the
callback unwraps `handle.metadata().source_url` and unwraps
`std::fs::remove_file` on it; `none` models a panic (missing url metadata,
or the file no longer exists so `remove_file` returns `Err`). -/
def track_end_notifier_act (fs : List String) (tracks : List (Option String)) :
    Option (List String) :=
  tracks.foldl
    (fun acc source_url =>
      acc.bind fun files =>
        source_url.bind fun u =>
          if files.contains u then some (files.erase u) else none)
    (some fs)

/-! ## Theorems -/

theorem bestMatchAt_nil (s : List Char) : bestMatchAt [] s = none := rfl

theorem normChars_nil (fuel : Nat) : ∀ s : List Char, normChars [] fuel s = s := by
  induction fuel with
  | zero => intro s; rfl
  | succ f ih =>
    intro s
    cases s with
    | nil => rfl
    | cons c rest => simp [normChars, bestMatchAt_nil, ih]

theorem make_read_text_nil (s : String) : make_read_text [] s = s := by
  cases s with
  | mk data => simp [make_read_text, normChars_nil]

theorem vsu_reaches_greet
    (c : CacheE) (db : Nat → UserConfig) (dict : List (String × String))
    (gid : Nat) (guild : GuildCacheE) (bot_vs : VoiceStateE) (ch : Nat)
    (mems : List Nat) (old : Option VoiceStateE) (n : VoiceStateE)
    (mem : MemberE) (nm : String)
    (hg : lookupIds c.guilds gid = some guild)
    (hb : lookupIds guild.voice_states c.bot_id = some bot_vs)
    (hch : bot_vs.channel_id = some ch)
    (hm : lookupIds c.channels ch = some mems)
    (hocc : (mems.filter (fun m => m != c.bot_id)).length ≠ 0)
    (hub : c.bot_id ≠ n.user_id)
    (hmem : n.member = some mem)
    (hnick : mem.nick = some nm)
    (htog : selfToggled old n = false) :
    voice_state_update c db dict (some gid) old n =
      (match tryIntoU8 (db n.user_id).voice_type,
             tryIntoU8 (db n.user_id).generator_type with
       | some v, some g =>
         VsuOutcome.speak
           (make_read_text dict
             (((db n.user_id).read_nickname.getD nm) ++ "さん、" ++
               (if leftBotChannel old ch then (db n.user_id).bye
                else (db n.user_id).hello)))
           v g
       | _, _ => VsuOutcome.panicked) := by
  simp only [voice_state_update, hg, hb, hch, hm, hmem, hnick]
  rw [if_neg hocc, if_neg hub]
  cases old with
  | none =>
    simp [leftBotChannel]
  | some o =>
    simp only [selfToggled] at htog
    simp only [htog, Bool.false_eq_true, if_false]
    by_cases hc : o.channel_id = some ch
    · simp [leftBotChannel, hc]
    · simp [leftBotChannel, hc]

/-- C1: while the bot is in a voice channel, an event for which the bot's
channel occupancy excluding the bot is zero makes the handler leave the
voice channel and emit no bye narration. -/
theorem c1_zero_occupancy_auto_leave
    (c : CacheE) (db : Nat → UserConfig) (dict : List (String × String))
    (gid : Nat) (guild : GuildCacheE) (bot_vs : VoiceStateE) (ch : Nat)
    (mems : List Nat) (old : Option VoiceStateE) (n : VoiceStateE)
    (hg : lookupIds c.guilds gid = some guild)
    (hb : lookupIds guild.voice_states c.bot_id = some bot_vs)
    (hch : bot_vs.channel_id = some ch)
    (hm : lookupIds c.channels ch = some mems)
    (hocc : (mems.filter (fun m => m != c.bot_id)).length = 0) :
    voice_state_update c db dict (some gid) old n = .leave ∧
      ∀ t v g, voice_state_update c db dict (some gid) old n ≠ .speak t v g := by
  have h : voice_state_update c db dict (some gid) old n = .leave := by
    simp only [voice_state_update, hg, hb, hch, hm]
    rw [if_pos hocc]
  refine ⟨h, fun t v g hcon => ?_⟩
  rw [h] at hcon
  exact VsuOutcome.noConfusion hcon

/-- Witness for C1: a concrete cache where the bot (id 1) sits alone in
channel 10 of guild 100; any event makes the handler leave. -/
theorem c1_witness :
    voice_state_update
        ⟨1, [(100, ⟨[(1, ⟨1, some 10, false, false, false, false, none⟩)]⟩)], [(10, [1])]⟩
        (fun _ => ⟨"やあ", "ばいばい", none, 0, 0⟩) [] (some 100) none
        ⟨2, none, false, false, false, false, none⟩ = .leave :=
  (c1_zero_occupancy_auto_leave
      ⟨1, [(100, ⟨[(1, ⟨1, some 10, false, false, false, false, none⟩)]⟩)], [(10, [1])]⟩
      (fun _ => ⟨"やあ", "ばいばい", none, 0, 0⟩) [] 100
      ⟨[(1, ⟨1, some 10, false, false, false, false, none⟩)]⟩
      ⟨1, some 10, false, false, false, false, none⟩ 10 [1] none
      ⟨2, none, false, false, false, false, none⟩
      rfl rfl rfl rfl (by decide)).1


/-- C2 counterexample: bot (id 1) is in channel 10 with occupancy 1 (user 3);
user 2 moves from channel 20 to channel 30, both different from the bot's
channel 10, yet the handler emits a hello narration ("たろうさん、やあ")
instead of staying silent: the code never inspects the event's new channel. -/
theorem c2_counterexample :
    voice_state_update
        ⟨1, [(100, ⟨[(1, ⟨1, some 10, false, false, false, false, none⟩)]⟩)], [(10, [1, 3])]⟩
        (fun _ => ⟨"やあ", "ばいばい", none, 0, 0⟩) [] (some 100)
        (some ⟨2, some 20, false, false, false, false, none⟩)
        ⟨2, some 30, false, false, false, false, some ⟨some "たろう"⟩⟩
      = .speak "たろうさん、やあ" 0 0 := by decide

/-- C2 amended: with the bot present and occupancy nonzero, an event about a
non-bot user that is not a pure self-flag toggle and whose member record
carries a guild nickname always produces a narration; its text uses the bye
greeting exactly when the previous channel equals the bot's channel and the
hello greeting otherwise (previous channel absent or different), with the
event's new channel never consulted. -/
theorem c2_greeting_direction
    (c : CacheE) (db : Nat → UserConfig) (dict : List (String × String))
    (gid : Nat) (guild : GuildCacheE) (bot_vs : VoiceStateE) (ch : Nat)
    (mems : List Nat) (old : Option VoiceStateE) (n : VoiceStateE)
    (mem : MemberE) (nm : String) (v g : Nat)
    (hg : lookupIds c.guilds gid = some guild)
    (hb : lookupIds guild.voice_states c.bot_id = some bot_vs)
    (hch : bot_vs.channel_id = some ch)
    (hm : lookupIds c.channels ch = some mems)
    (hocc : (mems.filter (fun m => m != c.bot_id)).length ≠ 0)
    (hub : c.bot_id ≠ n.user_id)
    (hmem : n.member = some mem)
    (hnick : mem.nick = some nm)
    (htog : selfToggled old n = false)
    (hv : tryIntoU8 (db n.user_id).voice_type = some v)
    (hgen : tryIntoU8 (db n.user_id).generator_type = some g) :
    voice_state_update c db dict (some gid) old n =
      .speak
        (make_read_text dict
          (((db n.user_id).read_nickname.getD nm) ++ "さん、" ++
            (if leftBotChannel old ch then (db n.user_id).bye
             else (db n.user_id).hello)))
        v g := by
  rw [vsu_reaches_greet c db dict gid guild bot_vs ch mems old n mem nm
        hg hb hch hm hocc hub hmem hnick htog, hv, hgen]

/-- Witness for C2 amended: a duplicate leave (previous channel 20, new
channel absent, bot channel 10) still emits the hello text. -/
theorem c2_witness :
    voice_state_update
        ⟨1, [(100, ⟨[(1, ⟨1, some 10, false, false, false, false, none⟩)]⟩)], [(10, [1, 3])]⟩
        (fun _ => ⟨"やあ", "ばいばい", none, 0, 0⟩) [] (some 100)
        (some ⟨2, some 20, false, false, false, false, none⟩)
        ⟨2, none, false, false, false, false, some ⟨some "たろう"⟩⟩
      = .speak "たろうさん、やあ" 0 0 := by
  rw [c2_greeting_direction
      ⟨1, [(100, ⟨[(1, ⟨1, some 10, false, false, false, false, none⟩)]⟩)], [(10, [1, 3])]⟩
      (fun _ => ⟨"やあ", "ばいばい", none, 0, 0⟩) [] 100
      ⟨[(1, ⟨1, some 10, false, false, false, false, none⟩)]⟩
      ⟨1, some 10, false, false, false, false, none⟩ 10 [1, 3]
      (some ⟨2, some 20, false, false, false, false, none⟩)
      ⟨2, none, false, false, false, false, some ⟨some "たろう"⟩⟩
      ⟨some "たろう"⟩ "たろう" 0 0
      rfl rfl rfl rfl (by decide) (by decide) rfl rfl (by decide) rfl rfl]
  decide

/-- C3 counterexample: user 2 has hello text "こんにちは" and no stored
read_nickname, and joins the bot's channel 10 (previous state absent), but
has no guild nickname: the handler emits nothing at all (the
`new.member?.nick?` chain short-circuits), rather than a narration built
from the user's displayed name. -/
theorem c3_counterexample :
    voice_state_update
        ⟨1, [(100, ⟨[(1, ⟨1, some 10, false, false, false, false, none⟩)]⟩)], [(10, [1, 2])]⟩
        (fun _ => ⟨"こんにちは", "ばいばい", none, 0, 0⟩) [] (some 100)
        none
        ⟨2, some 10, false, false, false, false, some ⟨none⟩⟩
      = .silent := by decide

/-- C3 amended: when a user whose member record carries a guild nickname and
whose stored config has hello text H and no read_nickname joins (previous
channel absent or different) with an empty dictionary, the emitted narration
text is the guild nickname, then "さん、", then H; a user without a guild
nickname produces no narration at all. -/
theorem c3_nickname_greeting
    (c : CacheE) (db : Nat → UserConfig)
    (gid : Nat) (guild : GuildCacheE) (bot_vs : VoiceStateE) (ch : Nat)
    (mems : List Nat) (old : Option VoiceStateE) (n : VoiceStateE)
    (mem : MemberE) (nm : String) (v g : Nat)
    (hg : lookupIds c.guilds gid = some guild)
    (hb : lookupIds guild.voice_states c.bot_id = some bot_vs)
    (hch : bot_vs.channel_id = some ch)
    (hm : lookupIds c.channels ch = some mems)
    (hocc : (mems.filter (fun m => m != c.bot_id)).length ≠ 0)
    (hub : c.bot_id ≠ n.user_id)
    (hmem : n.member = some mem)
    (hnick : mem.nick = some nm)
    (htog : selfToggled old n = false)
    (hleft : leftBotChannel old ch = false)
    (hnn : (db n.user_id).read_nickname = none)
    (hv : tryIntoU8 (db n.user_id).voice_type = some v)
    (hgen : tryIntoU8 (db n.user_id).generator_type = some g) :
    voice_state_update c db [] (some gid) old n =
      .speak (nm ++ "さん、" ++ (db n.user_id).hello) v g := by
  rw [vsu_reaches_greet c db [] gid guild bot_vs ch mems old n mem nm
        hg hb hch hm hocc hub hmem hnick htog, hv, hgen]
  simp [hnn, hleft, make_read_text_nil]

/-- Witness for C3 amended: user 2 (guild nickname "たろう", hello
"こんにちは", no read_nickname) joins the bot's channel 10. -/
theorem c3_witness :
    voice_state_update
        ⟨1, [(100, ⟨[(1, ⟨1, some 10, false, false, false, false, none⟩)]⟩)], [(10, [1, 2])]⟩
        (fun _ => ⟨"こんにちは", "ばいばい", none, 0, 0⟩) [] (some 100)
        none
        ⟨2, some 10, false, false, false, false, some ⟨some "たろう"⟩⟩
      = .speak "たろうさん、こんにちは" 0 0 := by
  rw [c3_nickname_greeting
      ⟨1, [(100, ⟨[(1, ⟨1, some 10, false, false, false, false, none⟩)]⟩)], [(10, [1, 2])]⟩
      (fun _ => ⟨"こんにちは", "ばいばい", none, 0, 0⟩) 100
      ⟨[(1, ⟨1, some 10, false, false, false, false, none⟩)]⟩
      ⟨1, some 10, false, false, false, false, none⟩ 10 [1, 2] none
      ⟨2, some 10, false, false, false, false, some ⟨some "たろう"⟩⟩
      ⟨some "たろう"⟩ "たろう" 0 0
      rfl rfl rfl rfl (by decide) (by decide) rfl rfl rfl rfl rfl rfl rfl]
  decide


/-- C4 counterexample: an event whose affected user is the bot itself (id 1)
arriving while the bot's channel occupancy excluding the bot is zero makes
the handler leave the voice channel: a bot-self event does trigger a
presence transition, because the zero-occupancy auto-leave runs before the
bot-self check. -/
theorem c4_counterexample :
    voice_state_update
        ⟨1, [(100, ⟨[(1, ⟨1, some 10, false, false, false, false, none⟩)]⟩)], [(10, [1])]⟩
        (fun _ => ⟨"やあ", "ばいばい", none, 0, 0⟩) [] (some 100) none
        ⟨1, some 10, false, false, false, false, none⟩
      = .leave := by decide

/-- C4 amended: an event about the bot itself, or a pure self-flag toggle,
triggers no greeting emission and no presence transition, provided the
bot's channel occupancy excluding the bot (as the handler reads it from the
cache) is not zero; when that occupancy is zero the handler auto-leaves
before examining the event's user. -/
theorem c4_ignored_events
    (c : CacheE) (db : Nat → UserConfig) (dict : List (String × String))
    (guild_id : Option Nat) (old : Option VoiceStateE) (n : VoiceStateE)
    (h : n.user_id = c.bot_id ∨ selfToggled old n = true)
    (hocc : bot_channel_occupancy c guild_id ≠ some 0) :
    voice_state_update c db dict guild_id old n = .silent := by
  cases guild_id with
  | none => rfl
  | some gid =>
    cases hg : lookupIds c.guilds gid with
    | none => simp [voice_state_update, hg]
    | some guild =>
      cases hb : lookupIds guild.voice_states c.bot_id with
      | none => simp [voice_state_update, hg, hb]
      | some bot_vs =>
        cases hch : bot_vs.channel_id with
        | none => simp [voice_state_update, hg, hb, hch]
        | some ch =>
          cases hm : lookupIds c.channels ch with
          | none => simp [voice_state_update, hg, hb, hch, hm]
          | some mems =>
            have hocc' : (mems.filter (fun m => m != c.bot_id)).length ≠ 0 := by
              intro h0
              exact hocc (by simp [bot_channel_occupancy, hg, hb, hch, hm, h0])
            simp only [voice_state_update, hg, hb, hch, hm]
            rw [if_neg hocc']
            by_cases hbu : c.bot_id = n.user_id
            · rw [if_pos hbu]
            · rw [if_neg hbu]
              rcases h with h | h
              · exact absurd h.symm hbu
              · cases hmem : n.member with
                | none => rfl
                | some mem =>
                  cases hnick : mem.nick with
                  | none => simp [hnick]
                  | some nm =>
                    cases old with
                    | none => simp [selfToggled] at h
                    | some o =>
                      simp only [selfToggled] at h
                      simp [h, hnick]

/-- Witness for C4 amended: a bot-self event (bot id 1) with occupancy 1
(user 3 remains in channel 10) produces no action. -/
theorem c4_witness :
    voice_state_update
        ⟨1, [(100, ⟨[(1, ⟨1, some 10, false, false, false, false, none⟩)]⟩)], [(10, [1, 3])]⟩
        (fun _ => ⟨"やあ", "ばいばい", none, 0, 0⟩) [] (some 100) none
        ⟨1, some 10, false, false, false, false, none⟩
      = .silent :=
  c4_ignored_events
    ⟨1, [(100, ⟨[(1, ⟨1, some 10, false, false, false, false, none⟩)]⟩)], [(10, [1, 3])]⟩
    (fun _ => ⟨"やあ", "ばいばい", none, 0, 0⟩) [] (some 100) none
    ⟨1, some 10, false, false, false, false, none⟩
    (Or.inl rfl) (by decide)

/-- C5: contrary to the containment policy, each of the three failure
conditions panics.  A track-end callback whose temporary audio file is
already gone panics in `TrackEndNotifier::act` (main.rs:64-65); a chat
message whose guild is missing from the cache panics in `message`
(handler.rs:367); a greeting for a user whose stored voice_type (here 300)
is outside `u8` panics in `voice_state_update` (handler.rs:352). -/
theorem c5_failure_panics :
    track_end_notifier_act [] [some "/tmp/a.wav"] = none ∧
      message_handler ⟨1, [], []⟩ (some 5) ⟨some 100, 2, 5⟩ = .panicked ∧
      voice_state_update
          ⟨1, [(100, ⟨[(1, ⟨1, some 10, false, false, false, false, none⟩)]⟩)], [(10, [1, 3])]⟩
          (fun _ => ⟨"やあ", "ばいばい", none, 300, 0⟩) [] (some 100) none
          ⟨2, some 10, false, false, false, false, some ⟨some "たろう"⟩⟩
        = .panicked := by decide

/-- C6 counterexample: the spoken reply of a slash command is played with
the literal voice/generator pair (0, 0) (handler.rs:492), even though the
invoking user's stored config (voice_type 5, generator_type 1) differs and
no per-request override was produced. -/
theorem c6_counterexample :
    interaction_create_speak (Except.ok "てすと") = some ("てすと", 0, 0) ∧
      ((⟨"や", "ば", none, 5, 1⟩ : UserConfig).voice_type,
          (⟨"や", "ば", none, 5, 1⟩ : UserConfig).generator_type) ≠
        ((0 : Int), (0 : Int)) := by decide

/-- C6 amended: greeting narrations use the greeted user's stored
voice_type and generator_type (converted to u8), while a spoken
slash-command reply always uses the fixed pair (0, 0) regardless of the
invoking user's stored config (the voice/generator fields of
`InstantSlashCommandResult` are never consulted). -/
theorem c6_voice_resolution
    (c : CacheE) (db : Nat → UserConfig) (dict : List (String × String))
    (gid : Nat) (guild : GuildCacheE) (bot_vs : VoiceStateE) (ch : Nat)
    (mems : List Nat) (old : Option VoiceStateE) (n : VoiceStateE)
    (mem : MemberE) (nm : String) (v g : Nat)
    (hg : lookupIds c.guilds gid = some guild)
    (hb : lookupIds guild.voice_states c.bot_id = some bot_vs)
    (hch : bot_vs.channel_id = some ch)
    (hm : lookupIds c.channels ch = some mems)
    (hocc : (mems.filter (fun m => m != c.bot_id)).length ≠ 0)
    (hub : c.bot_id ≠ n.user_id)
    (hmem : n.member = some mem)
    (hnick : mem.nick = some nm)
    (htog : selfToggled old n = false)
    (hv : tryIntoU8 (db n.user_id).voice_type = some v)
    (hgen : tryIntoU8 (db n.user_id).generator_type = some g) :
    (∃ t, voice_state_update c db dict (some gid) old n = .speak t v g) ∧
      ∀ s : String, interaction_create_speak (.ok s) = some (s, 0, 0) := by
  refine ⟨⟨make_read_text dict
      (((db n.user_id).read_nickname.getD nm) ++ "さん、" ++
        (if leftBotChannel old ch then (db n.user_id).bye
         else (db n.user_id).hello)), ?_⟩, fun s => rfl⟩
  rw [vsu_reaches_greet c db dict gid guild bot_vs ch mems old n mem nm
        hg hb hch hm hocc hub hmem hnick htog, hv, hgen]

/-- Witness for C6 amended: user 2 (stored voice_type 5, generator_type 1)
is greeted with exactly that pair. -/
theorem c6_witness :
    (∃ t, voice_state_update
        ⟨1, [(100, ⟨[(1, ⟨1, some 10, false, false, false, false, none⟩)]⟩)], [(10, [1, 2])]⟩
        (fun _ => ⟨"こんにちは", "ばいばい", none, 5, 1⟩) [] (some 100) none
        ⟨2, some 10, false, false, false, false, some ⟨some "たろう"⟩⟩
      = .speak t 5 1) ∧
      ∀ s : String, interaction_create_speak (.ok s) = some (s, 0, 0) :=
  c6_voice_resolution
    ⟨1, [(100, ⟨[(1, ⟨1, some 10, false, false, false, false, none⟩)]⟩)], [(10, [1, 2])]⟩
    (fun _ => ⟨"こんにちは", "ばいばい", none, 5, 1⟩) [] 100
    ⟨[(1, ⟨1, some 10, false, false, false, false, none⟩)]⟩
    ⟨1, some 10, false, false, false, false, none⟩ 10 [1, 2] none
    ⟨2, some 10, false, false, false, false, some ⟨some "たろう"⟩⟩
    ⟨some "たろう"⟩ "たろう" 5 1
    rfl rfl rfl rfl (by decide) (by decide) rfl rfl rfl rfl rfl


/-- C7: dictionary normalization picks the longest key matching at each
position, independently of registration order, advances past the matched
span, and passes unmatched characters through: with overlapping keys
"AB"→"x" and "ABC"→"y" (in either order) the input "ABC" normalizes to
"y"; "zABCABq" normalizes to "zyxq"; and the spec's dictionary scenario
{"ROI"→"アールオーアイ"} rewrites "ROIが上がった" accordingly. -/
theorem c7_longest_match_wins :
    make_read_text [("AB", "x"), ("ABC", "y")] "ABC" = "y" ∧
      make_read_text [("ABC", "y"), ("AB", "x")] "ABC" = "y" ∧
      make_read_text [("AB", "x"), ("ABC", "y")] "zABCABq" = "zyxq" ∧
      make_read_text [("ROI", "アールオーアイ")] "ROIが上がった" =
        "アールオーアイが上がった" := by decide

/-- C8: the leave command is idempotent: invoked for a guild without a voice
handler it leaves the manager unchanged and replies with the
"Not in a voice channel" notice; invoked with a handler present it releases
that guild's voice sink (the guild id is no longer held) and reports
"Left voice channel".  The `hnd` hypothesis is the manager-map invariant
that each guild holds at most one handler. -/
theorem c8_leave_idempotent (m : SongbirdManager) (gid : Nat)
    (hnd : m.handlers.Nodup) :
    (gid ∉ m.handlers → leave m gid = (m, "Not in a voice channel")) ∧
      (gid ∈ m.handlers →
        (leave m gid).2 = "Left voice channel" ∧
          gid ∉ (leave m gid).1.handlers) := by
  constructor
  · intro h
    simp [leave, h]
  · intro h
    simp [leave, h, List.Nodup.not_mem_erase hnd]

/-- Witness for C8: removing guild 5 from a manager holding only guild 3 is
a no-op with the notice; removing it from a manager holding guild 5
releases the handler. -/
theorem c8_witness :
    leave ⟨[3]⟩ 5 = (⟨[3]⟩, "Not in a voice channel") ∧
      (leave ⟨[5]⟩ 5).2 = "Left voice channel" ∧
        5 ∉ (leave ⟨[5]⟩ 5).1.handlers :=
  ⟨(c8_leave_idempotent ⟨[3]⟩ 5 (by decide)).1 (by decide),
    (c8_leave_idempotent ⟨[5]⟩ 5 (by decide)).2 (by decide)⟩

/-- C9: the message handler narrates a chat message exactly when the
message's text channel is the configured read channel, the author's guild
is cached, the author is in some cached voice channel, the bot is among
that channel's members, and the author is not the bot. -/
theorem c9_message_gate (c : CacheE) (rc : Option Nat) (msg : MessageE) :
    message_handler c rc msg = .narrate ↔
      ∃ gid guild vch mems,
        msg.guild_id = some gid ∧
          lookupIds c.guilds gid = some guild ∧
          rc = some msg.channel_id ∧
          (lookupIds guild.voice_states msg.author_id).bind
              (fun vs => vs.channel_id) = some vch ∧
          lookupIds c.channels vch = some mems ∧
          c.bot_id ∈ mems ∧ msg.author_id ≠ c.bot_id := by
  unfold message_handler
  cases hmg : msg.guild_id with
  | none => simp [hmg]
  | some gid =>
    cases hgl : lookupIds c.guilds gid with
    | none => simp [hmg, hgl]
    | some guild =>
      by_cases hrc : rc = some msg.channel_id
      · cases hv : (lookupIds guild.voice_states msg.author_id).bind
            (fun vs => vs.channel_id) with
        | none => simp [hmg, hgl, hv, hrc]
        | some vch =>
          cases hcm : lookupIds c.channels vch with
          | none => simp [hmg, hgl, hv, hcm, hrc]
          | some mems =>
            by_cases hin : c.bot_id ∈ mems ∧ msg.author_id ≠ c.bot_id
            · simp [hmg, hgl, hv, hcm, hrc, hin]
            · simp [hmg, hgl, hv, hcm, hrc, hin]
      · simp [hmg, hgl, hrc]

/-- C10: under the precondition that the guild has at least one voice-state
entry (and that each voice-state user is in the member cache), the random
index reduced modulo the entry count is in bounds and rand_member returns
the announcement built from that member's nickname or user name. -/
theorem c10_rand_member_in_bounds
    (c : CacheE) (mc : List (Nat × MemberCacheE)) (gid : Nat)
    (guild : GuildCacheE) (i : Nat)
    (hg : lookupIds c.guilds gid = some guild)
    (hne : guild.voice_states ≠ [])
    (hmc : ∀ uid ∈ guild.voice_states.map (fun p => p.1),
      (lookupIds mc uid).isSome) :
    i % (guild.voice_states.map (fun p => p.1)).length <
        (guild.voice_states.map (fun p => p.1)).length ∧
      ∃ uid m,
        (guild.voice_states.map (fun p => p.1))[i %
            (guild.voice_states.map (fun p => p.1)).length]? = some uid ∧
          lookupIds mc uid = some m ∧
          rand_member c mc (some gid) i =
            .ok ("でけでけでけでけ・・・でん！" ++ m.nick.getD m.user_name) := by
  have hlen : 0 < (guild.voice_states.map (fun p => p.1)).length := by
    rw [List.length_map]
    exact List.length_pos.mpr hne
  have hlt : i % (guild.voice_states.map (fun p => p.1)).length <
      (guild.voice_states.map (fun p => p.1)).length := Nat.mod_lt _ hlen
  refine ⟨hlt, ?_⟩
  have hsome : ((guild.voice_states.map (fun p => p.1))[i %
      (guild.voice_states.map (fun p => p.1)).length]?).isSome := by
    rw [List.getElem?_eq_getElem hlt]
    rfl
  obtain ⟨uid, hget⟩ := Option.isSome_iff_exists.mp hsome
  have hmem : uid ∈ guild.voice_states.map (fun p => p.1) :=
    List.getElem?_mem hget
  obtain ⟨m, hm⟩ := Option.isSome_iff_exists.mp (hmc uid hmem)
  refine ⟨uid, m, hget, hm, ?_⟩
  simp only [rand_member, hg, hget, hm]


/-- Witness for C10: guild 100 has one voice-state entry (user 7, cached
with no nickname and user name "alice"); draw 4 reduces to index 0. -/
theorem c10_witness :
    rand_member
        ⟨1, [(100, ⟨[(7, ⟨7, some 10, false, false, false, false, none⟩)]⟩)], []⟩
        [(7, ⟨none, "alice"⟩)] (some 100) 4
      = .ok "でけでけでけでけ・・・でん！alice" := by
  obtain ⟨h1, uid, m, h2, h3, h4⟩ :=
    c10_rand_member_in_bounds
      ⟨1, [(100, ⟨[(7, ⟨7, some 10, false, false, false, false, none⟩)]⟩)], []⟩
      [(7, ⟨none, "alice"⟩)] 100
      ⟨[(7, ⟨7, some 10, false, false, false, false, none⟩)]⟩ 4
      rfl (by decide) (by decide)
  have huid : uid = 7 := by
    have := h2.symm.trans (by decide :
      ((⟨[(7, ⟨7, some 10, false, false, false, false, none⟩)]⟩ :
          GuildCacheE).voice_states.map (fun p => p.1))[4 %
        ((⟨[(7, ⟨7, some 10, false, false, false, false, none⟩)]⟩ :
          GuildCacheE).voice_states.map (fun p => p.1)).length]? = some 7)
    exact Option.some.inj this
  subst huid
  have hm : m = ⟨none, "alice"⟩ := by
    have := h3.symm.trans (by decide :
      lookupIds [(7, (⟨none, "alice"⟩ : MemberCacheE))] 7 = some ⟨none, "alice"⟩)
    exact Option.some.inj this
  subst hm
  exact h4

end NapChan
